import Mathlib

/-!
Verification of the QR/PDF watermarking utilities (qr_utils.py, pdf_utils.py,
app.py): a shallow embedding of the payload-integrity codec, the MSE/PSNR
fidelity verifier, PDF image extraction, the embed pipeline and PDF
reconstruction, together with theorems about their behaviour.
-/

namespace Hasil

/-! ## UTF-8 and CRC32 (zlib.crc32 masked to uint32, as used in qr_utils.py) -/

/-- UTF-8 encoding of one character as a list of byte values. -/
def utf8EncodeChar (c : Char) : List Nat :=
  let n := c.toNat
  if n < 0x80 then [n]
  else if n < 0x800 then
    [0xC0 ||| (n >>> 6), 0x80 ||| (n &&& 0x3F)]
  else if n < 0x10000 then
    [0xE0 ||| (n >>> 12), 0x80 ||| ((n >>> 6) &&& 0x3F), 0x80 ||| (n &&& 0x3F)]
  else
    [0xF0 ||| (n >>> 18), 0x80 ||| ((n >>> 12) &&& 0x3F),
     0x80 ||| ((n >>> 6) &&& 0x3F), 0x80 ||| (n &&& 0x3F)]

/-- The UTF-8 bytes of a string (`data.encode("utf-8")`). -/
def utf8Bytes (s : String) : List Nat :=
  s.data.flatMap utf8EncodeChar

/-- One bit step of the reflected CRC-32 (polynomial 0xEDB88320). -/
def crc32Bit (c : Nat) : Nat :=
  if c % 2 = 1 then 0xEDB88320 ^^^ (c / 2) else c / 2

/-- Fold one byte into the CRC state (bytes are 8-bit values). -/
def crc32Byte (c b : Nat) : Nat :=
  crc32Bit^[8] (c ^^^ (b % 256))

/-- CRC-32 of a byte sequence, the value of `zlib.crc32(bytes) & 0xffffffff`. -/
def crc32 (bytes : List Nat) : Nat :=
  (bytes.foldl crc32Byte 0xFFFFFFFF) ^^^ 0xFFFFFFFF

/-! ## The integrity envelope (qr_utils.add_crc32_checksum) -/

/-- The dict `{"data": ..., "crc32": ..., "timestamp": ...}` built by
`add_crc32_checksum` (timestamps are nonnegative Unix seconds). -/
structure Envelope where
  data : String
  crc32 : Nat
  timestamp : Nat
deriving DecidableEq

/-- Model of `add_crc32_checksum(data)` from qr_utils.py: CRC32 over the UTF-8 bytes of
`data`, masked with `& 0xffffffff`; `now` stands for `int(time.time())`
(`time` is imported at module level, so the timestamp branch is always taken). -/
def add_crc32_checksum (data : String) (now : Nat) : Envelope :=
  { data := data
    crc32 := crc32 (utf8Bytes data) &&& 0xFFFFFFFF
    timestamp := now }

/-! ## Compact JSON serialization (json.dumps with separators (",", ":")) -/

/-- Lowercase hex digit. -/
def hexDigit (n : Nat) : Char :=
  if n < 10 then Char.ofNat (48 + n) else Char.ofNat (87 + n)

/-- Four lowercase hex digits, as in a JSON `\uXXXX` escape. -/
def hex4 (n : Nat) : List Char :=
  [hexDigit ((n >>> 12) &&& 15), hexDigit ((n >>> 8) &&& 15),
   hexDigit ((n >>> 4) &&& 15), hexDigit (n &&& 15)]

/-- Escape of one character under Python json.dumps defaults (ensure_ascii):
printable ASCII except quote and backslash is kept, control characters use the
short escapes or `\uXXXX`, and non-ASCII uses `\uXXXX` (surrogate pairs above
the BMP). -/
def jsonEscapeChar (c : Char) : List Char :=
  if c = Char.ofNat 34 then [Char.ofNat 92, Char.ofNat 34]
  else if c = Char.ofNat 92 then [Char.ofNat 92, Char.ofNat 92]
  else if c = Char.ofNat 10 then [Char.ofNat 92, Char.ofNat 110]
  else if c = Char.ofNat 13 then [Char.ofNat 92, Char.ofNat 114]
  else if c = Char.ofNat 9 then [Char.ofNat 92, Char.ofNat 116]
  else if c.toNat = 8 then [Char.ofNat 92, Char.ofNat 98]
  else if c.toNat = 12 then [Char.ofNat 92, Char.ofNat 102]
  else if 0x20 ≤ c.toNat ∧ c.toNat ≤ 0x7E then [c]
  else if c.toNat < 0x10000 then Char.ofNat 92 :: Char.ofNat 117 :: hex4 c.toNat
  else
    let m := c.toNat - 0x10000
    (Char.ofNat 92 :: Char.ofNat 117 :: hex4 (0xD800 + (m >>> 10))) ++
      (Char.ofNat 92 :: Char.ofNat 117 :: hex4 (0xDC00 + (m &&& 0x3FF)))

/-- JSON string-literal escaping of a whole string (without the quotes). -/
def jsonEscape (s : String) : String :=
  ⟨s.data.flatMap jsonEscapeChar⟩

/-- Serialization `json.dumps({"data": d, "crc32": c, "timestamp": t}, separators=(",", ":"))`
for the envelope: keys in insertion order, no whitespace at all. -/
def json_dumps_compact (e : Envelope) : String :=
  "\x7b\"data\":\"" ++ jsonEscape e.data ++ "\",\"crc32\":" ++ toString e.crc32 ++
    ",\"timestamp\":" ++ toString e.timestamp ++ "\x7d"

/-! ## CRC32 verification (qr_utils.verify_crc32_checksum) -/

/-- A parsed JSON value as seen by `verify_crc32_checksum`: either a dict with
the (optional) `data`, `crc32` and `timestamp` entries, or any non-dict value. -/
inductive PyJson where
  | obj (data : Option String) (crc32 : Option Nat) (timestamp : Option Nat)
  | nonDict
deriving DecidableEq

/-- The dict returned by `verify_crc32_checksum`: `valid` plus the keys that
are present in the respective branch (`none` models an absent key). -/
structure VerifyResult where
  valid : Bool
  data_valid : Option Bool
  timestamp : Option Nat
  error : Option String
deriving DecidableEq

/-- Model of `verify_crc32_checksum` from qr_utils.py.  Non-dict input gives a format
error; falsy `data` (absent or empty) or absent `crc32` gives the incomplete
error with no `data_valid` key; otherwise the checksum is recomputed over
`data` and compared to the stored one. -/
def verify_crc32_checksum : PyJson → VerifyResult
  | .nonDict =>
    { valid := false, data_valid := none, timestamp := none
      error := some "Data tidak dalam format yang benar" }
  | .obj d c t =>
    if d = none ∨ d = some "" ∨ c = none then
      { valid := false, data_valid := none, timestamp := none
        error := some "Data atau checksum tidak lengkap" }
    else
      let calculated := crc32 (utf8Bytes (d.getD ""))
      let dv : Bool := calculated == c.getD 0
      { valid := dv, data_valid := some dv, timestamp := t, error := none }

/-! ## Flask routes (app.py) -/

/-- Outcome of `generate_qr_route`, reduced to the text that gets QR-encoded:
either the 400 rejection for empty data, or the final QR payload text. -/
inductive RouteResult where
  | badRequest (message : String)
  | ok (qrText : String)
deriving DecidableEq

/-- Model of `generate_qr_route` (app.py): empty data is rejected with 400; with
`useCrc32` the envelope is built and serialized with compact separators;
otherwise the raw data is used verbatim.  `now` stands for `int(time.time())`. -/
def generate_qr_route (data : String) (use_crc32 : Bool) (now : Nat) : RouteResult :=
  if data = "" then .badRequest "Data QR tidak boleh kosong."
  else if use_crc32 then .ok (json_dumps_compact (add_crc32_checksum data now))
  else .ok data

/-- The JSON response of `validate_qr_integrity` (fields that are absent from
a branch are `none`); `httpStatus` is the HTTP status code. -/
structure ValidateResponse where
  success : Bool
  httpStatus : Nat
  integrity_check : Option Bool
  message : String
  data : Option String
  data_valid : Option Bool
  overall_valid : Option Bool
deriving DecidableEq

/-- Model of `validate_qr_integrity` (app.py) after a QR text has been decoded:
`parsed` is the result of `json.loads` (`none` on `JSONDecodeError`).  Parse
failure returns the legacy-format response; a dict is passed to
`verify_crc32_checksum`; non-dict JSON hits an `AttributeError` on
`.get` and is answered by the generic 500 handler. -/
def validate_qr_integrity (qr_data_raw : String) (parsed : Option PyJson) :
    ValidateResponse :=
  match parsed with
  | none =>
    { success := true, httpStatus := 200, integrity_check := some false
      message := "QR Code format lama (tanpa CRC32 checksum)"
      data := some qr_data_raw, data_valid := none, overall_valid := none }
  | some (.obj d c t) =>
    let v := verify_crc32_checksum (.obj d c t)
    { success := true, httpStatus := 200, integrity_check := some true
      message := if v.data_valid = some true then "Data valid"
                 else "Data rusak/dimodifikasi"
      data := some (d.getD ""), data_valid := some (v.data_valid.getD false)
      overall_valid := some v.valid }
  | some .nonDict =>
    { success := false, httpStatus := 500, integrity_check := none
      message := "Error validasi", data := none, data_valid := none
      overall_valid := none }

/-! ## Images and the MSE/PSNR verifier (qr_utils.calculate_mse_psnr) -/

/-- A decoded raster as produced by `cv2.imread`: an `height × width` array of
8-bit BGR triples (colour reads always have 3 channels, so shape equality is
equality of `height` and `width`).  `pixels` is row-major. -/
structure RawImage where
  height : Nat
  width : Nat
  pixels : List (Nat × Nat × Nat)
deriving DecidableEq

/-- Squared difference of two channel values, in exact arithmetic. -/
def sqDiff (a b : Nat) : ℚ := ((a : ℚ) - (b : ℚ)) ^ 2

/-- Sum of squared channel differences of two pixels. -/
def pixelSqDiff (p q : Nat × Nat × Nat) : ℚ :=
  sqDiff p.1 q.1 + sqDiff p.2.1 q.2.1 + sqDiff p.2.2 q.2.2

/-- Total squared difference over two pixel buffers. -/
def sumSqDiff (ps qs : List (Nat × Nat × Nat)) : ℚ :=
  ((ps.zip qs).map (fun pq => pixelSqDiff pq.1 pq.2)).sum

/-- Value of `np.mean((original - watermarked) ** 2)` over all `height * width * 3`
channel values, in exact arithmetic. -/
def mseOf (a b : RawImage) : ℚ :=
  sumSqDiff a.pixels b.pixels / ((a.height * a.width * 3 : Nat) : ℚ)

/-- The quality interpretation chain of `calculate_mse_psnr` (lines 321-330 of
qr_utils.py), applied to the final PSNR value. -/
def quality_label (psnr : ℚ) : String :=
  if psnr ≥ 999 then "Identik"
  else if psnr > 40 then "Sangat Baik"
  else if psnr > 30 then "Baik"
  else if psnr > 20 then "Cukup"
  else "Buruk"

/-- The dict returned by `calculate_mse_psnr`; keys absent from the error
branch are `none`. -/
structure MseResult where
  success : Bool
  mse : Option ℚ
  psnr : Option ℚ
  quality : Option String
  error : Option String
deriving DecidableEq

/-- Model of `calculate_mse_psnr` from qr_utils.py.  A shape mismatch returns the error
dict (it is returned, not raised).  Otherwise the exact MSE is computed (the
`isfinite`/negativity guard becomes clamping at 0, which never fires in exact
arithmetic); `mse == 0` selects the finite sentinel 999.99, and in the
`mse > 0` branch `psnrFloat` stands for the floating-point value
`20 * log10(255 / sqrt(mse))` computed by numpy, to which the code applies the
clamp `max(0, min(psnr, 999.99))`. -/
def calculate_mse_psnr (original watermarked : RawImage) (psnrFloat : ℚ) :
    MseResult :=
  if original.height ≠ watermarked.height ∨ original.width ≠ watermarked.width then
    { success := false, mse := none, psnr := none, quality := none
      error := some "Ukuran gambar tidak sama" }
  else
    let mse0 := mseOf original watermarked
    let mse := if mse0 < 0 then 0 else mse0
    let psnr : ℚ := if mse = 0 then 99999 / 100
                    else max 0 (min psnrFloat (99999 / 100))
    { success := true, mse := some mse, psnr := some psnr
      quality := some (quality_label psnr), error := none }

/-! ## PDF model and real-image extraction (pdf_utils.extract_images_from_pdf) -/

/-- One PDF page: the xrefs of its image objects, in the order listed by
`page.get_images(full=True)` (the image index on the page). -/
structure PdfPage where
  images : List Nat
deriving DecidableEq

/-- A PDF document: its pages in order. -/
abbrev Pdf := List PdfPage

/-- One extracted cover image, identified by the filename
`pdf_image_p{page}_i{idx}_{hash}.{ext}`: 1-based page number, 1-based image
index on that page, and the xref of the extracted stream. -/
structure ExtractedImage where
  page : Nat
  idx : Nat
  xref : Nat
deriving DecidableEq

/-- The files extracted from one (0-based page number, page) pair: one per
image reference, named with the 1-based page number and image index. -/
def extractPage (pp : Nat × PdfPage) : List ExtractedImage :=
  pp.2.images.enum.map (fun ji => { page := pp.1 + 1, idx := ji.1 + 1, xref := ji.2 })

/-- The full `extracted_images` list built by the extraction loop. -/
def extractedList (pdf : Pdf) : List ExtractedImage :=
  pdf.enum.flatMap extractPage

/-- Model of `extract_images_from_pdf` from pdf_utils.py: for every page in order, for
every image reference on that page in order, extract the stream behind its
xref (there is no cross-page deduplication — every reference yields one
output file).  Raises `ValueError("NO_IMAGES_FOUND")` when nothing was
extracted, modelled as `Except.error`. -/
def extract_images_from_pdf (pdf : Pdf) : Except String (List ExtractedImage) :=
  if extractedList pdf = [] then .error "NO_IMAGES_FOUND"
  else .ok (extractedList pdf)

/-! ## The real-image embed pipeline (pdf_utils.embed_watermark_to_pdf_real_images) -/

/-- Environmental outcome of the `create_watermarked_pdf` call inside the
pipeline: it returned `True`, returned `False`, or raised. -/
inductive AssembleOutcome where
  | created
  | notCreated
  | errored
deriving DecidableEq

/-- One entry of the `processed_images` list: the 1-based image index and the
recorded `calculate_mse_psnr` metrics. -/
structure ProcessedImage where
  image_index : Nat
  metrics : MseResult
deriving DecidableEq

/-- The result dict of `embed_watermark_to_pdf_real_images`:
`watermarked_pdf_path` is the value of that key (`none` models Python
`None`), `file_size_info_present` records whether `file_size_info` is a dict
rather than `None`. -/
structure EmbedResult where
  success : Bool
  error_type : Option String
  processed_images : List ProcessedImage
  watermarked_pdf_path : Option String
  file_size_info_present : Bool
deriving DecidableEq

/-- The `processed_images` list built by the per-image watermarking loop: one
entry per extracted image whose embedding produced an output file. -/
def processedOf (extracted : List ExtractedImage) (embedOk : Nat → Bool)
    (metricsOf : Nat → MseResult) : List ProcessedImage :=
  (extracted.enum.filter (fun ie => embedOk ie.1)).map
    (fun ie => { image_index := ie.1 + 1, metrics := metricsOf ie.1 })

/-- Model of `embed_watermark_to_pdf_real_images` from pdf_utils.py.  `embedOk i` says
whether the LSB embedding of the i-th extracted image (0-based) produced its
output file (`embed_qr_to_image` lives outside src/), and `metricsOf i` is the
metrics dict recorded for it.  The `NO_IMAGES_FOUND` ValueError from
extraction is re-raised to the caller (`Except.error`); with zero successfully
watermarked images the run returns the `WATERMARKING_FAILED` failure dict;
otherwise the run returns `success: True` whatever `assemble` did, with
`watermarked_pdf_path` already assigned (and so non-None) unless
`create_watermarked_pdf` raised, and `file_size_info` only when it returned
`True`. -/
def embed_watermark_to_pdf_real_images (pdf : Pdf) (embedOk : Nat → Bool)
    (metricsOf : Nat → MseResult) (assemble : AssembleOutcome) :
    Except String EmbedResult :=
  match extract_images_from_pdf pdf with
  | .error e => .error e
  | .ok extracted =>
    let processed := processedOf extracted embedOk metricsOf
    if processed = [] then
      .ok { success := false, error_type := some "WATERMARKING_FAILED"
            processed_images := [], watermarked_pdf_path := none
            file_size_info_present := false }
    else
      match assemble with
      | .created =>
        .ok { success := true, error_type := none, processed_images := processed
              watermarked_pdf_path := some "watermarked_output.pdf"
              file_size_info_present := true }
      | .notCreated =>
        .ok { success := true, error_type := none, processed_images := processed
              watermarked_pdf_path := some "watermarked_output.pdf"
              file_size_info_present := false }
      | .errored =>
        .ok { success := true, error_type := none, processed_images := processed
              watermarked_pdf_path := none
              file_size_info_present := false }

/-! ## PDF reconstruction (pdf_utils.create_watermarked_pdf) -/

/-- One file of the watermarked-images directory: `key` is the pair matched by
the regex search for `_p(\d+)_i(\d+)_` in its name (`none` when the name does
not match), `content` identifies the image it carries. -/
structure FileEntry where
  key : Option (Nat × Nat)
  content : Nat
deriving DecidableEq

/-- Model of `extract_page_number` from pdf_utils.py: the `(page, image)` pair parsed
from the filename, with the `(0, 0)` fallback for non-matching names. -/
def extract_page_number (f : FileEntry) : Nat × Nat :=
  match f.key with
  | some k => k
  | none => (0, 0)

/-- Python tuple order `(p1, i1) <= (p2, i2)` (lexicographic), as a Bool. -/
def keyLe (a b : Nat × Nat) : Bool :=
  decide (a.1 < b.1) || (decide (a.1 = b.1) && decide (a.2 ≤ b.2))

/-- Strict lexicographic order on `(page, image)` keys. -/
def keyLt (a b : Nat × Nat) : Prop :=
  a.1 < b.1 ∨ (a.1 = b.1 ∧ a.2 < b.2)

instance : DecidableRel keyLt := fun a b => by
  unfold keyLt; infer_instance

/-- Model of `create_watermarked_pdf` from pdf_utils.py: with no image files it returns
`False` (`none`); otherwise the files are sorted by `extract_page_number`
(Python `list.sort` is a stable merge sort) and the output PDF has exactly
those images as its pages, in sorted order. -/
def create_watermarked_pdf (files : List FileEntry) : Option (List Nat) :=
  if files = [] then none
  else some ((files.mergeSort
    (fun a b => keyLe (extract_page_number a) (extract_page_number b))).map
      (fun f => f.content))

/-- The key carried by the watermarked file of an extracted image
(`watermarked_` + the extraction filename keeps the `_p{n}_i{m}_` part). -/
def extractedKey (e : ExtractedImage) : Nat × Nat := (e.page, e.idx)

/-- Strict `(page, image)` order between extracted images. -/
def extKeyLt (a b : ExtractedImage) : Prop :=
  keyLt (extractedKey a) (extractedKey b)

/-- Strict `(page, image)` order between directory entries, through the parsed
sort key. -/
def entryLt (a b : FileEntry) : Prop :=
  keyLt (extract_page_number a) (extract_page_number b)

instance : IsAntisymm FileEntry entryLt where
  antisymm a b h1 h2 := by
    unfold entryLt keyLt at h1 h2
    omega

/-- A fixed metrics dict, used to instantiate pipelines on concrete inputs. -/
def trivMetrics : MseResult :=
  { success := true, mse := some 0, psnr := some (99999 / 100)
    quality := some "Identik", error := none }

/-- The PDF of the container-invariants scenario: 2 distinct images (xrefs 1
and 2) reused across 5 pages. -/
def pdfTwoImagesFivePages : Pdf :=
  List.replicate 5 { images := [1, 2] }

/-! ## Helper lemmas -/

lemma pixelSqDiff_self (p : Nat × Nat × Nat) : pixelSqDiff p p = 0 := by
  simp [pixelSqDiff, sqDiff]

lemma sumSqDiff_self (l : List (Nat × Nat × Nat)) : sumSqDiff l l = 0 := by
  induction l with
  | nil => simp [sumSqDiff]
  | cons p t ih => simpa [sumSqDiff, pixelSqDiff_self] using ih

lemma crc32Bit_lt {c : Nat} (h : c < 2 ^ 32) : crc32Bit c < 2 ^ 32 := by
  unfold crc32Bit
  split
  · exact Nat.xor_lt_two_pow (by norm_num) (by omega)
  · omega

lemma crc32Bit_iterate_lt (n : Nat) {c : Nat} (h : c < 2 ^ 32) :
    crc32Bit^[n] c < 2 ^ 32 := by
  induction n generalizing c with
  | zero => simpa using h
  | succ k ih =>
    rw [Function.iterate_succ_apply]
    exact ih (crc32Bit_lt h)

lemma crc32Byte_lt {c : Nat} (b : Nat) (h : c < 2 ^ 32) :
    crc32Byte c b < 2 ^ 32 := by
  unfold crc32Byte
  exact crc32Bit_iterate_lt 8 (Nat.xor_lt_two_pow h (by omega))

lemma foldl_crc32Byte_lt (bs : List Nat) : ∀ {c : Nat}, c < 2 ^ 32 →
    bs.foldl crc32Byte c < 2 ^ 32 := by
  induction bs with
  | nil => intro c h; simpa using h
  | cons b t ih => intro c h; exact ih (crc32Byte_lt b h)

lemma crc32_lt (bs : List Nat) : crc32 bs < 2 ^ 32 := by
  unfold crc32
  exact Nat.xor_lt_two_pow (foldl_crc32Byte_lt bs (by norm_num)) (by norm_num)

lemma crc32_mask (bs : List Nat) : crc32 bs &&& 0xFFFFFFFF = crc32 bs := by
  have h32 : (0xFFFFFFFF : Nat) = 2 ^ 32 - 1 := by norm_num
  rw [h32]
  exact Nat.and_pow_two_sub_one_of_lt_two_pow (crc32_lt bs)

/-! ## Claims about the payload codec -/

/-- C3 fails as stated at `X = ""`: the envelope of the empty string (whose
CRC32 is 0, matching the stored checksum) does not verify with
`data_valid = true` — the incomplete-data branch fires and no `data_valid`
key is returned at all. -/
theorem C3_counterexample :
    crc32 (utf8Bytes "") = 0 ∧
    ¬ ((verify_crc32_checksum (.obj (some "") (some (crc32 (utf8Bytes ""))) none)).data_valid
        = some true) := by
  decide

/-- C3 (amended to non-empty payloads): for every non-empty string `X`, the
envelope carrying the CRC32 of `X` verifies with `data_valid = true`, and
any envelope whose stored checksum differs from the recomputed one yields
`data_valid = false` with no error — both cases return normally. -/
theorem C3_theorem (X : String) (hX : X ≠ "") (chk : Nat) (ts : Option Nat)
    (hchk : chk ≠ crc32 (utf8Bytes X)) :
    verify_crc32_checksum (.obj (some X) (some (crc32 (utf8Bytes X))) ts) =
      { valid := true, data_valid := some true, timestamp := ts, error := none } ∧
    verify_crc32_checksum (.obj (some X) (some chk) ts) =
      { valid := false, data_valid := some false, timestamp := ts, error := none } := by
  constructor
  · simp [verify_crc32_checksum, hX]
  · have hb : (crc32 (utf8Bytes X) == chk) = false := by
      simp [Ne.symm hchk]
    simp [verify_crc32_checksum, hX, hb]

/-- Witness for C3_theorem at `X = "abc"`, a wrong checksum 0 and no
timestamp. -/
theorem C3_theorem_witness :
    verify_crc32_checksum (.obj (some "abc") (some (crc32 (utf8Bytes "abc"))) none) =
      { valid := true, data_valid := some true, timestamp := none, error := none } ∧
    verify_crc32_checksum (.obj (some "abc") (some 0) none) =
      { valid := false, data_valid := some false, timestamp := none, error := none } :=
  C3_theorem "abc" (by decide) 0 none (by decide)

/-- C10: an envelope whose `data` is absent or the empty string is rejected
with the incomplete-data error and no `data_valid` key, whatever the stored
checksum — even though `crc32("") = 0`, so an empty payload can never
validate as intact. -/
theorem C10_theorem (d : Option String) (c : Option Nat) (ts : Option Nat)
    (hd : d = none ∨ d = some "") :
    verify_crc32_checksum (.obj d c ts) =
      { valid := false, data_valid := none, timestamp := none
        error := some "Data atau checksum tidak lengkap" } ∧
    crc32 (utf8Bytes "") = 0 := by
  refine ⟨?_, by decide⟩
  rcases hd with h | h <;> subst h <;> simp [verify_crc32_checksum]

/-- Witness for C10_theorem: the empty-string envelope with stored checksum 0
(the CRC32 of the empty string). -/
theorem C10_witness :
    verify_crc32_checksum (.obj (some "") (some 0) none) =
      { valid := false, data_valid := none, timestamp := none
        error := some "Data atau checksum tidak lengkap" } ∧
    crc32 (utf8Bytes "") = 0 :=
  C10_theorem (some "") (some 0) none (Or.inr rfl)

/-- C5: when the decoded QR text does not parse as JSON, the validation route
answers with the distinguishable legacy-format response — HTTP 200,
`success: true`, `integrity_check: false`, carrying the raw text — and with
no `data_valid` verdict, so no fatal error and no verification failure. -/
theorem C5_theorem (raw : String) :
    validate_qr_integrity raw none =
      { success := true, httpStatus := 200, integrity_check := some false
        message := "QR Code format lama (tanpa CRC32 checksum)"
        data := some raw, data_valid := none, overall_valid := none } := rfl

/-- C9: for non-empty data, the route with CRC32 enabled QR-encodes exactly
the compact-separator JSON of the envelope `{data, crc32, timestamp}` where
the checksum is the CRC32 of the UTF-8 bytes of the data (a genuine uint32,
so the `& 0xffffffff` mask is the identity on it) and the timestamp is the
current Unix time; with CRC32 disabled the payload text is used verbatim. -/
theorem C9_theorem (data : String) (now : Nat) (h : data ≠ "") :
    generate_qr_route data true now =
      .ok (json_dumps_compact
        { data := data, crc32 := crc32 (utf8Bytes data), timestamp := now }) ∧
    crc32 (utf8Bytes data) < 2 ^ 32 ∧
    generate_qr_route data false now = .ok data := by
  refine ⟨?_, crc32_lt (utf8Bytes data), ?_⟩
  · unfold generate_qr_route add_crc32_checksum
    rw [if_neg h, if_pos rfl, crc32_mask]
  · unfold generate_qr_route
    rw [if_neg h]
    rfl

/-- Witness for C9_theorem at `data = "A"` and Unix time 7. -/
theorem C9_witness :
    generate_qr_route "A" true 7 =
      .ok (json_dumps_compact
        { data := "A", crc32 := crc32 (utf8Bytes "A"), timestamp := 7 }) ∧
    crc32 (utf8Bytes "A") < 2 ^ 32 ∧
    generate_qr_route "A" false 7 = .ok "A" :=
  C9_theorem "A" 7 (by decide)

/-! ## Claims about the fidelity verifier -/

/-- C4: comparing a cover image with itself yields `mse = 0`, the finite
sentinel PSNR 999.99 (not infinity) and the "Identik" label; and below the
sentinel gate the quality label follows exactly the claimed thresholds
(> 40 very good, > 30 good, > 20 fair, else poor). -/
theorem C4_theorem (C : RawImage) (pf p : ℚ) (hp : p < 999) :
    calculate_mse_psnr C C pf =
      { success := true, mse := some 0, psnr := some (99999 / 100)
        quality := some "Identik", error := none } ∧
    quality_label p =
      (if p > 40 then "Sangat Baik" else if p > 30 then "Baik"
       else if p > 20 then "Cukup" else "Buruk") := by
  constructor
  · have hm : mseOf C C = 0 := by
      unfold mseOf
      rw [sumSqDiff_self]
      simp
    unfold calculate_mse_psnr
    rw [if_neg (by simp)]
    simp only [hm]
    norm_num [quality_label]
  · unfold quality_label
    rw [if_neg (by exact not_le.mpr (by linarith))]

/-- Witness for C4_theorem on a 1×1 image and the below-sentinel PSNR 35. -/
theorem C4_witness :
    calculate_mse_psnr ⟨1, 1, [(3, 4, 5)]⟩ ⟨1, 1, [(3, 4, 5)]⟩ 0 =
      { success := true, mse := some 0, psnr := some (99999 / 100)
        quality := some "Identik", error := none } ∧
    quality_label 35 =
      (if (35 : ℚ) > 40 then "Sangat Baik" else if (35 : ℚ) > 30 then "Baik"
       else if (35 : ℚ) > 20 then "Cukup" else "Buruk") :=
  C4_theorem ⟨1, 1, [(3, 4, 5)]⟩ 0 35 (by norm_num)

/-- C7: on images of different shape, `calculate_mse_psnr` returns the
dimension-mismatch error dict (it does not raise), and recording that dict
inside the embed pipeline leaves the run a success: the image still lands in
`processed_images` with the error recorded as its metrics. -/
theorem C7_theorem (a b : RawImage) (pf : ℚ)
    (h : a.height ≠ b.height ∨ a.width ≠ b.width) :
    calculate_mse_psnr a b pf =
      { success := false, mse := none, psnr := none, quality := none
        error := some "Ukuran gambar tidak sama" } ∧
    embed_watermark_to_pdf_real_images [{ images := [1] }] (fun _ => true)
        (fun _ => calculate_mse_psnr a b pf) .created =
      .ok { success := true, error_type := none
            processed_images :=
              [{ image_index := 1
                 metrics := { success := false, mse := none, psnr := none
                              quality := none
                              error := some "Ukuran gambar tidak sama" } }]
            watermarked_pdf_path := some "watermarked_output.pdf"
            file_size_info_present := true } := by
  have h1 : calculate_mse_psnr a b pf =
      { success := false, mse := none, psnr := none, quality := none
        error := some "Ukuran gambar tidak sama" } := by
    unfold calculate_mse_psnr
    rw [if_pos h]
  refine ⟨h1, ?_⟩
  rw [h1]
  rfl

/-- Witness for C7_theorem: a 1×1 against a 2×1 image. -/
theorem C7_witness :
    calculate_mse_psnr ⟨1, 1, [(0, 0, 0)]⟩ ⟨2, 1, [(0, 0, 0), (0, 0, 0)]⟩ 0 =
      { success := false, mse := none, psnr := none, quality := none
        error := some "Ukuran gambar tidak sama" } ∧
    embed_watermark_to_pdf_real_images [{ images := [1] }] (fun _ => true)
        (fun _ => calculate_mse_psnr ⟨1, 1, [(0, 0, 0)]⟩ ⟨2, 1, [(0, 0, 0), (0, 0, 0)]⟩ 0)
        .created =
      .ok { success := true, error_type := none
            processed_images :=
              [{ image_index := 1
                 metrics := { success := false, mse := none, psnr := none
                              quality := none
                              error := some "Ukuran gambar tidak sama" } }]
            watermarked_pdf_path := some "watermarked_output.pdf"
            file_size_info_present := true } :=
  C7_theorem ⟨1, 1, [(0, 0, 0)]⟩ ⟨2, 1, [(0, 0, 0), (0, 0, 0)]⟩ 0 (by decide)

/-! ## Helper lemmas about extraction order -/

lemma fst_le_of_mem_enumFrom {α : Type} :
    ∀ {l : List α} {k : Nat} {x : Nat × α}, x ∈ l.enumFrom k → k ≤ x.1 := by
  intro l
  induction l with
  | nil => intro k x h; simp at h
  | cons a t ih =>
    intro k x h
    rw [List.enumFrom_cons] at h
    rcases List.mem_cons.mp h with h | h
    · subst h; exact Nat.le_refl k
    · exact Nat.le_of_succ_le (ih h)

lemma enumFrom_pairwise_fst {α : Type} :
    ∀ (l : List α) (k : Nat), (l.enumFrom k).Pairwise (fun a b => a.1 < b.1) := by
  intro l
  induction l with
  | nil => intro k; simp
  | cons a t ih =>
    intro k
    rw [List.enumFrom_cons]
    refine List.Pairwise.cons ?_ (ih (k + 1))
    intro x hx
    exact Nat.lt_of_succ_le (fst_le_of_mem_enumFrom hx)

lemma extractPage_pairwise (pp : Nat × PdfPage) :
    (extractPage pp).Pairwise extKeyLt := by
  unfold extractPage
  rw [List.pairwise_map]
  refine (enumFrom_pairwise_fst pp.2.images 0).imp ?_
  intro a b hab
  exact Or.inr ⟨rfl, Nat.add_lt_add_right hab 1⟩

lemma mem_extractPage_page {pp : Nat × PdfPage} {e : ExtractedImage}
    (he : e ∈ extractPage pp) : e.page = pp.1 + 1 := by
  unfold extractPage at he
  rcases List.mem_map.mp he with ⟨ji, -, rfl⟩
  rfl

lemma extractedAux_pairwise :
    ∀ (l : List PdfPage) (k : Nat),
      ((l.enumFrom k).flatMap extractPage).Pairwise extKeyLt := by
  intro l
  induction l with
  | nil => intro k; simp
  | cons pg t ih =>
    intro k
    rw [List.enumFrom_cons, List.flatMap_cons, List.pairwise_append]
    refine ⟨extractPage_pairwise _, ih (k + 1), ?_⟩
    intro a ha b hb
    have hpa : a.page = k + 1 := mem_extractPage_page ha
    rcases List.mem_flatMap.mp hb with ⟨pp, hpp, hbe⟩
    have hpb : b.page = pp.1 + 1 := mem_extractPage_page hbe
    have hk : k + 1 ≤ pp.1 := fst_le_of_mem_enumFrom hpp
    simp only [extKeyLt, extractedKey, keyLt]
    omega

lemma extractedAux_length :
    ∀ (l : List PdfPage) (k : Nat),
      ((l.enumFrom k).flatMap extractPage).length
        = (l.map (fun pg => pg.images.length)).sum := by
  intro l
  induction l with
  | nil => intro k; simp
  | cons pg t ih =>
    intro k
    rw [List.enumFrom_cons, List.flatMap_cons, List.length_append, ih (k + 1)]
    simp [extractPage]

lemma extractedAux_nil :
    ∀ (l : List PdfPage) (k : Nat), (∀ pg ∈ l, pg.images = []) →
      (l.enumFrom k).flatMap extractPage = [] := by
  intro l
  induction l with
  | nil => intro k _; simp
  | cons pg t ih =>
    intro k h
    rw [List.enumFrom_cons, List.flatMap_cons, ih (k + 1) (fun q hq => h q (List.mem_cons_of_mem _ hq))]
    simp [extractPage, h pg (List.mem_cons_self pg t)]

lemma extract_ok {pdf : Pdf} {L : List ExtractedImage}
    (hex : extract_images_from_pdf pdf = .ok L) :
    L = extractedList pdf ∧ extractedList pdf ≠ [] := by
  unfold extract_images_from_pdf at hex
  split at hex
  · exact absurd hex (by simp)
  · next h => exact ⟨(Except.ok.inj hex).symm, h⟩

/-! ## Helper lemmas about the directory sort key -/

lemma keyLt_irrefl (k : Nat × Nat) : ¬ keyLt k k := by
  unfold keyLt; omega

lemma keyLe_trans {a b c : Nat × Nat} (h1 : keyLe a b = true)
    (h2 : keyLe b c = true) : keyLe a c = true := by
  simp only [keyLe, Bool.or_eq_true, Bool.and_eq_true, decide_eq_true_eq] at h1 h2 ⊢
  omega

lemma keyLe_total (a b : Nat × Nat) : (keyLe a b || keyLe b a) = true := by
  simp only [keyLe, Bool.or_eq_true, Bool.and_eq_true, decide_eq_true_eq]
  omega

lemma keyLt_of_keyLe_ne {a b : Nat × Nat} (h1 : keyLe a b = true) (h2 : a ≠ b) :
    keyLt a b := by
  simp only [keyLe, Bool.or_eq_true, Bool.and_eq_true, decide_eq_true_eq] at h1
  unfold keyLt
  rcases h1 with h | ⟨h, h1⟩
  · exact Or.inl h
  · refine Or.inr ⟨h, lt_of_le_of_ne h1 ?_⟩
    intro hy
    exact h2 (Prod.ext h hy)

/-! ## Claims about PDF extraction and the embed pipeline -/

/-- C1 fails as stated: on the PDF with 2 distinct images (xrefs 1 and 2)
reused across 5 pages, real-image extraction returns 10 cover images — one
per page-level reference, with no deduplication by xref identity — not 2. -/
theorem C1_counterexample :
    pdfTwoImagesFivePages.length = 5 ∧
    (pdfTwoImagesFivePages.flatMap (fun pg => pg.images)).dedup.length = 2 ∧
    (extract_images_from_pdf pdfTwoImagesFivePages).toOption.map List.length = some 10 ∧
    ¬ ((extract_images_from_pdf pdfTwoImagesFivePages).toOption.map List.length = some 2) := by
  decide

/-- C1 (amended): real-image extraction returns one cover image per image
reference per page — an image reused on k pages is extracted k times — and
the output is strictly ordered by `(page_index, image_index_on_page)`. -/
theorem C1_theorem (pdf : Pdf) (L : List ExtractedImage)
    (hex : extract_images_from_pdf pdf = .ok L) :
    L.length = (pdf.map (fun pg => pg.images.length)).sum ∧
    L.Pairwise extKeyLt := by
  obtain ⟨rfl, -⟩ := extract_ok hex
  exact ⟨extractedAux_length pdf 0, extractedAux_pairwise pdf 0⟩

/-- Witness for C1_theorem on the 2-images-5-pages PDF. -/
theorem C1_witness :
    ([⟨1, 1, 1⟩, ⟨1, 2, 2⟩, ⟨2, 1, 1⟩, ⟨2, 2, 2⟩, ⟨3, 1, 1⟩, ⟨3, 2, 2⟩,
      ⟨4, 1, 1⟩, ⟨4, 2, 2⟩, ⟨5, 1, 1⟩, ⟨5, 2, 2⟩] : List ExtractedImage).length
        = (pdfTwoImagesFivePages.map (fun pg => pg.images.length)).sum ∧
    ([⟨1, 1, 1⟩, ⟨1, 2, 2⟩, ⟨2, 1, 1⟩, ⟨2, 2, 2⟩, ⟨3, 1, 1⟩, ⟨3, 2, 2⟩,
      ⟨4, 1, 1⟩, ⟨4, 2, 2⟩, ⟨5, 1, 1⟩, ⟨5, 2, 2⟩] : List ExtractedImage).Pairwise extKeyLt :=
  C1_theorem pdfTwoImagesFivePages _ (by rfl)

/-- C6: a PDF in which no page has any image object makes extraction raise
`NO_IMAGES_FOUND`, and the embed run re-raises it to the caller — the run
aborts and no result (hence no output container) is produced. -/
theorem C6_theorem (pdf : Pdf) (embedOk : Nat → Bool) (metricsOf : Nat → MseResult)
    (assemble : AssembleOutcome) (h : ∀ pg ∈ pdf, pg.images = []) :
    extract_images_from_pdf pdf = .error "NO_IMAGES_FOUND" ∧
    embed_watermark_to_pdf_real_images pdf embedOk metricsOf assemble =
      .error "NO_IMAGES_FOUND" := by
  have hnil : extractedList pdf = [] := extractedAux_nil pdf 0 h
  have h1 : extract_images_from_pdf pdf = .error "NO_IMAGES_FOUND" := by
    unfold extract_images_from_pdf
    rw [if_pos hnil]
  refine ⟨h1, ?_⟩
  unfold embed_watermark_to_pdf_real_images
  rw [h1]

/-- Witness for C6_theorem: a one-page PDF with no images. -/
theorem C6_witness :
    extract_images_from_pdf [{ images := [] }] = .error "NO_IMAGES_FOUND" ∧
    embed_watermark_to_pdf_real_images [{ images := [] }] (fun _ => true)
        (fun _ => trivMetrics) .created = .error "NO_IMAGES_FOUND" :=
  C6_theorem [{ images := [] }] (fun _ => true) (fun _ => trivMetrics) .created
    (by decide)

/-- C2 fails as stated: on a one-image PDF whose watermarking succeeds but
whose `create_watermarked_pdf` call returns `False`, the embed run still
returns a `success: True` result (with `watermarked_pdf_path` set and
`file_size_info` None) instead of failing with a reconstruction error. -/
theorem C2_counterexample :
    embed_watermark_to_pdf_real_images [{ images := [1] }] (fun _ => true)
        (fun _ => trivMetrics) .notCreated =
      .ok { success := true, error_type := none
            processed_images := [{ image_index := 1, metrics := trivMetrics }]
            watermarked_pdf_path := some "watermarked_output.pdf"
            file_size_info_present := false } := by rfl

/-- C2 (amended): failure to assemble the output PDF is not fatal — whenever
at least one image was watermarked the run returns `success: True` even if
`create_watermarked_pdf` returned `False` (then `file_size_info` is None) or
raised (then additionally `watermarked_pdf_path` is None); only the case of
zero watermarked images fails, and it is tagged `WATERMARKING_FAILED`, not
with a reconstruction error. -/
theorem C2_theorem (pdf : Pdf) (embedOk : Nat → Bool) (metricsOf : Nat → MseResult)
    (L : List ExtractedImage) (hex : extract_images_from_pdf pdf = .ok L) :
    (processedOf L embedOk metricsOf ≠ [] →
      embed_watermark_to_pdf_real_images pdf embedOk metricsOf .notCreated =
        .ok { success := true, error_type := none
              processed_images := processedOf L embedOk metricsOf
              watermarked_pdf_path := some "watermarked_output.pdf"
              file_size_info_present := false } ∧
      embed_watermark_to_pdf_real_images pdf embedOk metricsOf .errored =
        .ok { success := true, error_type := none
              processed_images := processedOf L embedOk metricsOf
              watermarked_pdf_path := none
              file_size_info_present := false }) ∧
    (processedOf L embedOk metricsOf = [] →
      embed_watermark_to_pdf_real_images pdf embedOk metricsOf .notCreated =
        .ok { success := false, error_type := some "WATERMARKING_FAILED"
              processed_images := [], watermarked_pdf_path := none
              file_size_info_present := false }) := by
  constructor
  · intro hne
    constructor <;> simp [embed_watermark_to_pdf_real_images, hex, hne]
  · intro hnil
    simp [embed_watermark_to_pdf_real_images, hex, hnil]

/-- Witness for C2_theorem on a one-image PDF with a succeeding embedder. -/
theorem C2_witness :
    (processedOf [⟨1, 1, 1⟩] (fun _ => true) (fun _ => trivMetrics) ≠ [] →
      embed_watermark_to_pdf_real_images [{ images := [1] }] (fun _ => true)
          (fun _ => trivMetrics) .notCreated =
        .ok { success := true, error_type := none
              processed_images := processedOf [⟨1, 1, 1⟩] (fun _ => true) (fun _ => trivMetrics)
              watermarked_pdf_path := some "watermarked_output.pdf"
              file_size_info_present := false } ∧
      embed_watermark_to_pdf_real_images [{ images := [1] }] (fun _ => true)
          (fun _ => trivMetrics) .errored =
        .ok { success := true, error_type := none
              processed_images := processedOf [⟨1, 1, 1⟩] (fun _ => true) (fun _ => trivMetrics)
              watermarked_pdf_path := none
              file_size_info_present := false }) ∧
    (processedOf [⟨1, 1, 1⟩] (fun _ => true) (fun _ => trivMetrics) = [] →
      embed_watermark_to_pdf_real_images [{ images := [1] }] (fun _ => true)
          (fun _ => trivMetrics) .notCreated =
        .ok { success := false, error_type := some "WATERMARKING_FAILED"
              processed_images := [], watermarked_pdf_path := none
              file_size_info_present := false }) :=
  C2_theorem [{ images := [1] }] (fun _ => true) (fun _ => trivMetrics) [⟨1, 1, 1⟩] (by rfl)

/-- C8: PDF assembly preserves extraction order — for any enumeration order
of the watermarked-images directory (`files` is any permutation of the
watermarked files, whose names carry the extraction keys), sorting by the
parsed `(page, image)` key makes the Nth extracted image the Nth page of the
output PDF. -/
theorem C8_theorem (pdf : Pdf) (L : List ExtractedImage) (g : ExtractedImage → Nat)
    (files : List FileEntry)
    (hex : extract_images_from_pdf pdf = .ok L)
    (hperm : files.Perm (L.map (fun e => { key := some (extractedKey e), content := g e }))) :
    create_watermarked_pdf files = some (L.map g) := by
  obtain ⟨hL, hLne⟩ := extract_ok hex
  have hLpw : L.Pairwise extKeyLt := by rw [hL]; exact extractedAux_pairwise pdf 0
  have htpw : (L.map (fun e => ({ key := some (extractedKey e), content := g e } : FileEntry))).Pairwise entryLt := by
    rw [List.pairwise_map]
    exact hLpw.imp (fun h => h)
  have hne_f : files ≠ [] := by
    intro h0
    rw [h0] at hperm
    have := hperm.symm.eq_nil
    rw [List.map_eq_nil_iff] at this
    rw [hL] at this
    exact hLne this
  have hperm2 : (files.mergeSort
      (fun a b => keyLe (extract_page_number a) (extract_page_number b))).Perm
      (L.map (fun e => { key := some (extractedKey e), content := g e })) :=
    (List.mergeSort_perm files _).trans hperm
  have hsort : (files.mergeSort
      (fun a b => keyLe (extract_page_number a) (extract_page_number b))).Pairwise
      (fun a b => keyLe (extract_page_number a) (extract_page_number b) = true) :=
    @List.sorted_mergeSort FileEntry
      (fun a b => keyLe (extract_page_number a) (extract_page_number b))
      (fun a b c h1 h2 => keyLe_trans h1 h2)
      (fun a b => keyLe_total _ _) files
  have hnodup_t : ((L.map (fun e => ({ key := some (extractedKey e), content := g e } : FileEntry))).map
      extract_page_number).Nodup := by
    rw [List.map_map]
    refine List.Pairwise.map _ (fun a b h hy => ?_) hLpw
    have h' : keyLt (extractedKey a) (extractedKey b) := h
    have hy' : extractedKey a = extractedKey b := hy
    rw [hy'] at h'
    exact keyLt_irrefl _ h'
  have hnodup_s : ((files.mergeSort
      (fun a b => keyLe (extract_page_number a) (extract_page_number b))).map
      extract_page_number).Nodup :=
    ((hperm2.map extract_page_number).nodup_iff).mpr hnodup_t
  have hsort_lt : (files.mergeSort
      (fun a b => keyLe (extract_page_number a) (extract_page_number b))).Pairwise entryLt := by
    have hnepw : (files.mergeSort
        (fun a b => keyLe (extract_page_number a) (extract_page_number b))).Pairwise
        (fun a b => extract_page_number a ≠ extract_page_number b) :=
      List.pairwise_map.mp hnodup_s
    exact (hsort.and hnepw).imp (fun h => keyLt_of_keyLe_ne h.1 h.2)
  have heq : files.mergeSort
      (fun a b => keyLe (extract_page_number a) (extract_page_number b)) =
      L.map (fun e => { key := some (extractedKey e), content := g e }) :=
    List.eq_of_perm_of_sorted hperm2 hsort_lt htpw
  unfold create_watermarked_pdf
  rw [if_neg hne_f, heq, List.map_map]
  rfl

/-- Witness for C8_theorem: a two-page PDF with one image each, the directory
enumerated in reversed order. -/
theorem C8_witness :
    create_watermarked_pdf [⟨some (2, 1), 120⟩, ⟨some (1, 1), 110⟩] =
      some (([⟨1, 1, 10⟩, ⟨2, 1, 20⟩] : List ExtractedImage).map (fun e => e.xref + 100)) :=
  C8_theorem [{ images := [10] }, { images := [20] }] [⟨1, 1, 10⟩, ⟨2, 1, 20⟩]
    (fun e => e.xref + 100) [⟨some (2, 1), 120⟩, ⟨some (1, 1), 110⟩]
    (by rfl) (by decide)

end Hasil
